import Mathlib

/-!
Verification of the statistical normalization and dynamic scoring engine of
the `fantasy-public-pull` repository, as a shallow embedding of
`src/fppull/build_player_week_wide.py` and
`src/fppull/compute_points_dynamic.py`.

String-processing primitives mirror the Python string methods on ASCII input
(the upstream labels and values the pipeline consumes are ASCII).
Machine floats are embedded as exact rationals; pandas frames are embedded as
lists of records whose numeric columns are functions from a column enum.
-/

namespace FPPull

/-- Whitespace test of Python `str.strip` (ASCII whitespace). -/
def isWs (c : Char) : Bool :=
  c == ' ' || c == '\t' || c == '\n' || c == '\r' || c == '\x0b' || c == '\x0c'

/-- Strip ASCII whitespace from both ends, as Python `str.strip()`. -/
def stripL (l : List Char) : List Char :=
  ((l.dropWhile isWs).reverse.dropWhile isWs).reverse

/-- Remove every comma, as Python `str.replace(",", "")`. -/
def removeCommasL (l : List Char) : List Char :=
  l.filter (fun c => c != ',')

/-- Numeric value of a decimal digit character. -/
def digitVal (c : Char) : Nat := c.toNat - '0'.toNat

/-- Digit tail of Python `int(str)` parsing: decimal digits in which a single
underscore may stand between two digits (Python 3 literal grammar). -/
def pyIntDigits : Nat → List Char → Option Nat
  | acc, [] => some acc
  | _, ['_'] => none
  | acc, '_' :: c :: rest =>
      if c.isDigit then pyIntDigits (acc * 10 + digitVal c) rest else none
  | acc, c :: rest =>
      if c.isDigit then pyIntDigits (acc * 10 + digitVal c) rest else none

/-- Unsigned core of Python `int(str)`: a nonempty digit run (with the
underscore rule), value accumulated in base 10. -/
def pyIntCore : List Char → Option Nat
  | [] => none
  | c :: rest => if c.isDigit then pyIntDigits (digitVal c) rest else none

/-- Python's builtin `int(str)` on ASCII strings: strip whitespace, optional
sign, digit run; `none` models the `ValueError` on any other shape. -/
def pyIntOfString (s : String) : Option Int :=
  match stripL s.data with
  | '+' :: rest => (pyIntCore rest).map (fun n => (n : Int))
  | '-' :: rest => (pyIntCore rest).map (fun n => -(n : Int))
  | l => (pyIntCore l).map (fun n => (n : Int))

/-- The cleaned string `str(val).replace(",", "").strip()` of `to_int`. -/
def cleaned (s : String) : String := String.mk (stripL (removeCommasL s.data))

/-- `to_int` of `build_player_week_wide.py`: remove commas, strip, then
`int(...)` if nonempty, with every failure collapsing to 0. -/
def to_int (s : String) : Int :=
  let s' := cleaned s
  if s' = "" then 0
  else
    match pyIntOfString s' with
    | some n => n
    | none => 0

/-- `parse_pair` of `build_player_week_wide.py`: the source regex is
anchored ws, digits, ws, a slash-or-hyphen separator, ws, digits, ws;
it returns (0, 0) when the regex does not match. -/
def parse_pair (s : String) : Int × Int :=
  let l1 := s.data.dropWhile isWs
  let d1 := l1.takeWhile Char.isDigit
  let l2 := (l1.dropWhile Char.isDigit).dropWhile isWs
  if d1 = [] then (0, 0)
  else
    match l2 with
    | [] => (0, 0)
    | sep :: rest =>
      if sep == '/' || sep == '-' then
        let r1 := rest.dropWhile isWs
        let d2 := r1.takeWhile Char.isDigit
        let r2 := (r1.dropWhile Char.isDigit).dropWhile isWs
        if d2 ≠ [] ∧ r2 = [] then
          (((d1.foldl (fun a c => a * 10 + digitVal c) 0 : Nat) : Int),
           ((d2.foldl (fun a c => a * 10 + digitVal c) 0 : Nat) : Int))
        else (0, 0)
      else (0, 0)

/-- The 17 canonical numeric fields of `extract_numeric`'s output row. -/
inductive WideField
  | pass_cmp | pass_att | pass_yds | pass_td | pass_int
  | rush_att | rush_yds | rush_td
  | rec_tgt | rec_rec | rec_yds | rec_td
  | fum_lost
  | k_fgm | k_fga | xp_made | xp_att
deriving DecidableEq

/-- Normalized label key: `k.upper().strip()` (the Python code strips after
uppercasing by building `{k.upper().strip(): v}`; on ASCII the two orders
agree, and we follow upper-then-strip of the source text). -/
def normKey (k : String) : List Char := (stripL k.data).map Char.toUpper

/-- Lookup in the normalized dict `norm`: the dict comprehension lets a later
duplicate normalized key overwrite an earlier one, hence the last match. -/
def normGet (stats : List (String × String)) (key : String) : Option String :=
  (stats.filterMap (fun p => if normKey p.1 = key.data then some p.2 else none)).getLast?

/-- `to_int` applied to an optional lookup: `to_int(None)` hits the
`except` branch of `to_int` and yields 0. -/
def toIntOpt : Option String → Int
  | none => 0
  | some s => to_int s

/-- Substring containment on char lists (Python's `in` on strings). -/
def isInfixL (needle : List Char) : List Char → Bool
  | [] => needle.isEmpty
  | c :: t => needle.isPrefixOf (c :: t) || isInfixL needle t

/-- Passing branch of `extract_numeric`. -/
def passingRow (stats : List (String × String)) : WideField → Int :=
  let cmpAtt : Int × Int :=
    match normGet stats "C/ATT" with
    | some v => parse_pair v
    | none =>
      match normGet stats "CMP/ATT" with
      | some v => parse_pair v
      | none =>
        (toIntOpt ((normGet stats "CMP").orElse (fun _ => normGet stats "C")),
         toIntOpt (normGet stats "ATT"))
  fun f =>
    match f with
    | .pass_cmp => cmpAtt.1
    | .pass_att => cmpAtt.2
    | .pass_yds => toIntOpt (normGet stats "YDS")
    | .pass_td => toIntOpt (normGet stats "TD")
    | .pass_int => toIntOpt (normGet stats "INT")
    | _ => 0

/-- Rushing branch of `extract_numeric`. -/
def rushingRow (stats : List (String × String)) : WideField → Int :=
  fun f =>
    match f with
    | .rush_att => toIntOpt ((normGet stats "CAR").orElse (fun _ => normGet stats "ATT"))
    | .rush_yds => toIntOpt (normGet stats "YDS")
    | .rush_td => toIntOpt (normGet stats "TD")
    | _ => 0

/-- Receiving branch of `extract_numeric`. -/
def receivingRow (stats : List (String × String)) : WideField → Int :=
  fun f =>
    match f with
    | .rec_tgt => toIntOpt ((normGet stats "TGT").orElse (fun _ => normGet stats "TAR"))
    | .rec_rec => toIntOpt ((normGet stats "REC").orElse (fun _ => normGet stats "RECEPTIONS"))
    | .rec_yds => toIntOpt (normGet stats "YDS")
    | .rec_td => toIntOpt (normGet stats "TD")
    | _ => 0

/-- Fumbles/misc branch of `extract_numeric`. -/
def fumblesRow (stats : List (String × String)) : WideField → Int :=
  fun f =>
    match f with
    | .fum_lost =>
        toIntOpt ((normGet stats "LOST").orElse (fun _ =>
          (normGet stats "FUM LOST").orElse (fun _ =>
            (normGet stats "LST").orElse (fun _ => normGet stats "FL"))))
    | _ => 0

/-- Kicking branch of `extract_numeric`. -/
def kickingRow (stats : List (String × String)) : WideField → Int :=
  let fg : Int × Int :=
    match normGet stats "FGM-A" with
    | some v => parse_pair v
    | none =>
      (toIntOpt ((normGet stats "FGM").orElse (fun _ => normGet stats "FG")),
       toIntOpt (normGet stats "FGA"))
  let xp : Int × Int :=
    match normGet stats "XPM-A" with
    | some v => parse_pair v
    | none => (toIntOpt (normGet stats "XPM"), toIntOpt (normGet stats "XPA"))
  fun f =>
    match f with
    | .k_fgm => fg.1
    | .k_fga => fg.2
    | .xp_made => xp.1
    | .xp_att => xp.2
    | _ => 0

/-- `extract_numeric` of `build_player_week_wide.py`: substring dispatch on
the lowercased stat-group name, every field defaulting to 0. -/
def extract_numeric (stat_group : String) (stats : List (String × String)) :
    WideField → Int :=
  let sg := stat_group.data.map Char.toLower
  if isInfixL "passing".data sg then passingRow stats
  else if isInfixL "rushing".data sg then rushingRow stats
  else if isInfixL "receiving".data sg then receivingRow stats
  else if isInfixL "fumbles".data sg || isInfixL "misc".data sg then fumblesRow stats
  else if isInfixL "kicking".data sg then kickingRow stats
  else fun _ => 0

/-- The grouping key of `build_player_week_wide.main` (`base_cols`). -/
structure BaseKey where
  season : String
  week : String
  event_id : String
  team_abbr : String
  athlete_id : String
  athlete_name : String
  position : String
deriving DecidableEq

/-- One canonicalized stat-category row of the long-to-wide build, keyed by
`base_cols` with the 17 extracted numeric fields. -/
structure LongRow where
  key : BaseKey
  stats : WideField → Int

/-- The `wide.groupby(base_cols).agg(sum)` step of
`build_player_week_wide.main`: one output row per distinct key, each numeric
field summed over the group (output order is not modelled; the source sorts
the result, which permutes rows without changing any field). -/
def aggregateCategories (rows : List LongRow) : List LongRow :=
  ((rows.map LongRow.key).dedup).map (fun k =>
    ⟨k, fun c => ((rows.filter (fun r => decide (r.key = k))).map (fun r => r.stats c)).sum⟩)

/-- `KEY_COLS` of `compute_points_dynamic.py`: position is deliberately not
part of the grouping key. -/
structure PWKey where
  season : String
  week : String
  team_abbr : String
  athlete_name : String
deriving DecidableEq

/-- `WIDE_NUMERIC_COLS` of `compute_points_dynamic.py` (the 13 numeric
columns the points script keeps through its groupby). -/
inductive NumCol
  | pass_yds | pass_td | pass_int
  | rush_yds | rush_td
  | rec_rec | rec_yds | rec_td
  | fum_lost
  | xp_made | xp_att | k_fgm | k_fga
deriving DecidableEq

/-- One row of the wide CSV after `_ensure_columns` (all key columns strings,
all numeric columns coerced to floats, embedded as rationals). -/
structure WideRow where
  key : PWKey
  stats : NumCol → ℚ

/-- Maximum of a list of rationals; the empty case is never consulted by the
pipeline on a nonempty group. -/
def maxListQ : List ℚ → ℚ
  | [] => 0
  | [x] => x
  | x :: y :: t => max x (maxListQ (y :: t))

/-- `_collapse_player_weeks`: one row per `KEY_COLS` key, each numeric column
collapsed by MAX over the group (pandas `groupby(KEY_COLS)[cols].max()`;
output order is not modelled). -/
def collapse_player_weeks (rows : List WideRow) : List WideRow :=
  ((rows.map WideRow.key).dedup).map (fun k =>
    ⟨k, fun c => maxListQ ((rows.filter (fun r => decide (r.key = k))).map (fun r => r.stats c))⟩)

/-- The yard columns `YARD_COLS = [pass_yds, rush_yds, rec_yds]`. -/
def isYardCol : NumCol → Bool
  | .pass_yds | .rush_yds | .rec_yds => true
  | _ => false

/-- Column maximum `float(w[c].max())`. -/
def colMax (rows : List WideRow) (c : NumCol) : ℚ :=
  maxListQ (rows.map (fun r => r.stats c))

/-- `yard_max` of `_normalize_yard_units`: the maximum over the three yard
columns of their column maxima; on an empty frame the source's `except`
branch pins it to 0.0. -/
def yardMax (rows : List WideRow) : ℚ :=
  if rows.isEmpty then 0
  else max (colMax rows .pass_yds) (max (colMax rows .rush_yds) (colMax rows .rec_yds))

/-- The per-row division applied when the tenths heuristic fires: every yard
column divided by 10, every other column untouched. -/
def scaleYardRow (r : WideRow) : WideRow :=
  ⟨r.key, fun c => if isYardCol c then r.stats c / 10 else r.stats c⟩

/-- `_normalize_yard_units`: batch-wide, all-or-nothing tenths correction. -/
def normalize_yard_units (rows : List WideRow) : List WideRow :=
  if yardMax rows > 1000 then rows.map scaleYardRow else rows

/-- The ten canonical scoring metrics (keys of the weights dict). -/
inductive Metric
  | pass_yds | pass_td | pass_int
  | rush_yds | rush_td
  | rec_rec | rec_yds | rec_td
  | fum_lost
  | xp_made
deriving DecidableEq

/-- The two aggregation modes of the statId catalog. -/
inductive AggMode
  | per_unit
  | count
deriving DecidableEq

/-- `STATID_TO_METRIC` of `compute_points_dynamic.py`: the fixed catalog from
ESPN statId to (metric, mode, scale); field-goal bucket ids (74, 77, 80, 83,
88) are deliberately absent. -/
def STATID_TO_METRIC (sid : Int) : Option (Metric × AggMode × ℚ) :=
  if sid = 3 then some (.pass_yds, .per_unit, 1)
  else if sid = 25 then some (.pass_td, .count, 1)
  else if sid = 26 then some (.pass_int, .count, 1)
  else if sid = 24 then some (.rush_yds, .per_unit, 1)
  else if sid = 27 then some (.rush_td, .count, 1)
  else if sid = 42 then some (.rec_rec, .count, 1)
  else if sid = 43 then some (.rec_yds, .per_unit, 1)
  else if sid = 44 then some (.rec_td, .count, 1)
  else if sid = 52 then some (.fum_lost, .count, 1)
  else if sid = 86 then some (.xp_made, .count, 1)
  else none

/-- One iteration of the `_build_weight_config` loop: a catalog hit writes
`weights[metric] = pts * scale` (a dict assignment, so a later row for the
same metric overwrites an earlier one); a miss appends the statId to the
`unknown` list. -/
def wcStep (acc : (Metric → Option ℚ) × List Int) (row : Int × ℚ) :
    (Metric → Option ℚ) × List Int :=
  match STATID_TO_METRIC row.1 with
  | some (m, _, scale) =>
      (fun mq => if mq = m then some (row.2 * scale) else acc.1 mq, acc.2)
  | none => (acc.1, acc.2 ++ [row.1])

/-- `_build_weight_config` before the defaults pass: the partially resolved
weights dict and the `unknown` diagnostic list, built by the row loop. -/
def build_weight_config (cfg : List (Int × ℚ)) : (Metric → Option ℚ) × List Int :=
  cfg.foldl wcStep (fun _ => none, [])

/-- The documented fallback `defaults` dict of `_build_weight_config`. -/
def DEFAULT_WEIGHTS : Metric → ℚ
  | .pass_yds => 4/100
  | .pass_td => 4
  | .pass_int => -2
  | .rush_yds => 1/10
  | .rush_td => 6
  | .rec_rec => 1
  | .rec_yds => 1/10
  | .rec_td => 6
  | .fum_lost => -2
  | .xp_made => 1

/-- The final weights table: the `weights.setdefault(k, v)` pass fills in a
default exactly where the loop resolved nothing. -/
def resolveWeights (cfg : List (Int × ℚ)) (m : Metric) : ℚ :=
  ((build_weight_config cfg).1 m).getD (DEFAULT_WEIGHTS m)

/-- The value the loop leaves in `weights[m]`, read off the configuration:
the last configuration row whose statId maps to `m` wins. -/
def lastConfigured (m : Metric) : List (Int × ℚ) → Option ℚ
  | [] => none
  | p :: t =>
    match lastConfigured m t with
    | some v => some v
    | none =>
      match STATID_TO_METRIC p.1 with
      | some (m', _, scale) => if m = m' then some (p.2 * scale) else none
      | none => none

/-- The statIds of the configuration rows that miss the catalog, in row
order (the `unknown` list the loop accumulates). -/
def unknownIdsOf (cfg : List (Int × ℚ)) : List Int :=
  cfg.filterMap (fun p => if (STATID_TO_METRIC p.1).isSome then none else some p.1)

/-- Round half to even, as numpy rounding of pandas `Series.round`. -/
def roundHalfEven (q : ℚ) : Int :=
  if q - ⌊q⌋ < 1/2 then ⌊q⌋
  else if 1/2 < q - ⌊q⌋ then ⌊q⌋ + 1
  else if ⌊q⌋ % 2 = 0 then ⌊q⌋ else ⌊q⌋ + 1

/-- `.round(2)`: round to two decimal places. -/
def round2 (q : ℚ) : ℚ := (roundHalfEven (q * 100) : ℚ) / 100

/-- One output row of `player_week_points.csv`. -/
structure PointsRow where
  key : PWKey
  position : String
  pts_pass : ℚ
  pts_rush : ℚ
  pts_rec : ℚ
  pts_kick : ℚ
  pts_misc : ℚ
  pts_ppr : ℚ
deriving DecidableEq

/-- The scoring step of `compute_points_dynamic.main`: the five category
subtotals, each rounded to two decimals, and the grand total rounded again.
The `position` column was dropped by the numeric groupby and re-added as the
empty string. -/
def pointsRow (r : WideRow) (w : Metric → ℚ) : PointsRow :=
  let pp := round2 (r.stats .pass_yds * w .pass_yds + r.stats .pass_td * w .pass_td
      + r.stats .pass_int * w .pass_int)
  let pr := round2 (r.stats .rush_yds * w .rush_yds + r.stats .rush_td * w .rush_td)
  let pc := round2 (r.stats .rec_rec * w .rec_rec + r.stats .rec_yds * w .rec_yds
      + r.stats .rec_td * w .rec_td)
  let pk := round2 (r.stats .xp_made * w .xp_made)
  let pm := round2 (r.stats .fum_lost * w .fum_lost)
  ⟨r.key, "", pp, pr, pc, pk, pm, round2 (pp + pr + pc + pk + pm)⟩

/-- The advisory diagnostics `compute_points_dynamic.main` can print on its
default (non-debug) path: the tenths-correction notice and the
unknown-statId summary. -/
inductive Diag
  | unit_correction
  | unknown_ids (ids : List Int)
deriving DecidableEq

/-- The batch transform of `compute_points_dynamic.main` from the ensured
wide rows and the scoring configuration to the points rows and the emitted
diagnostics: collapse duplicates by MAX, apply the tenths heuristic, resolve
weights, score every row. -/
def runComputePipeline (rows : List WideRow) (cfg : List (Int × ℚ)) :
    List PointsRow × List Diag :=
  let collapsed := collapse_player_weeks rows
  let normed := normalize_yard_units collapsed
  let wc := build_weight_config cfg
  (normed.map (fun r => pointsRow r (fun m => (wc.1 m).getD (DEFAULT_WEIGHTS m))),
   (if yardMax collapsed > 1000 then [Diag.unit_correction] else [])
     ++ (if wc.2 ≠ [] then [Diag.unknown_ids wc.2] else []))

/-- A sample player-week key. -/
def pwk0 : PWKey := ⟨"2024", "1", "AAA", "Player A"⟩

/-- A numeric-column vector that is `v` at `c0` and 0 elsewhere. -/
def statOnlyQ (c0 : NumCol) (v : ℚ) : NumCol → ℚ :=
  fun c => if c = c0 then v else 0

/-- A wide row for `pwk0` carrying only passing yards `v`. -/
def wrowPass (v : ℚ) : WideRow := ⟨pwk0, statOnlyQ .pass_yds v⟩

/-- A wide row for `pwk0` with 400 receiving yards (implausibly large per the
spec's thresholds) and nothing else. -/
def bigRecRow : WideRow := ⟨pwk0, statOnlyQ .rec_yds 400⟩

/-- A wide row for `pwk0` with 380 rushing yards (below the tenths trigger). -/
def rushRow380 : WideRow := ⟨pwk0, statOnlyQ .rush_yds 380⟩

/-- A wide row for `pwk0` with 2450 receiving yards (above the tenths
trigger). -/
def recRow2450 : WideRow := ⟨pwk0, statOnlyQ .rec_yds 2450⟩

/-- A wide row for `pwk0` with the passing line of the end-to-end example:
300 yards, 2 touchdowns, 1 interception. -/
def passExampleRow : WideRow :=
  ⟨pwk0, fun c =>
    if c = .pass_yds then 300 else if c = .pass_td then 2 else
    if c = .pass_int then 1 else 0⟩

/-- A wide row for `pwk0` with 2 extra points and 4 field goals made. -/
def kickerRow : WideRow :=
  ⟨pwk0, fun c => if c = .xp_made then 2 else if c = .k_fgm then 4 else
    if c = .k_fga then 5 else 0⟩

/-- A sample long-build base key. -/
def bk0 : BaseKey := ⟨"2024", "1", "401", "AAA", "9", "Player A", "QB"⟩

/-- A wide-field vector that is `v` at `c0` and 0 elsewhere. -/
def statOnlyZ (c0 : WideField) (v : Int) : WideField → Int :=
  fun c => if c = c0 then v else 0

/-- A canonicalized passing-category row for `bk0`: 250 passing yards. -/
def longPassRow : LongRow := ⟨bk0, statOnlyZ .pass_yds 250⟩

/-- A canonicalized rushing-category row for `bk0`: 40 rushing yards. -/
def longRushRow : LongRow := ⟨bk0, statOnlyZ .rush_yds 40⟩

/-- The fields the passing branch of `extract_numeric` may set. -/
def passingMask : WideField → Bool
  | .pass_cmp | .pass_att | .pass_yds | .pass_td | .pass_int => true
  | _ => false

/-- The fields the rushing branch of `extract_numeric` may set. -/
def rushingMask : WideField → Bool
  | .rush_att | .rush_yds | .rush_td => true
  | _ => false

/-- The fields the receiving branch of `extract_numeric` may set. -/
def receivingMask : WideField → Bool
  | .rec_tgt | .rec_rec | .rec_yds | .rec_td => true
  | _ => false

/-- The fields the fumbles/misc branch of `extract_numeric` may set. -/
def fumblesMask : WideField → Bool
  | .fum_lost => true
  | _ => false

/-- The fields the kicking branch of `extract_numeric` may set. -/
def kickingMask : WideField → Bool
  | .k_fgm | .k_fga | .xp_made | .xp_att => true
  | _ => false

/-- The category domain of a stat-group name, following the same substring
dispatch as `extract_numeric`; unknown groups have an empty domain. -/
def categoryFields (stat_group : String) : WideField → Bool :=
  let sg := stat_group.data.map Char.toLower
  if isInfixL "passing".data sg then passingMask
  else if isInfixL "rushing".data sg then rushingMask
  else if isInfixL "receiving".data sg then receivingMask
  else if isInfixL "fumbles".data sg || isInfixL "misc".data sg then fumblesMask
  else if isInfixL "kicking".data sg then kickingMask
  else fun _ => false

/-- Every normalized source label `extract_numeric` ever consults. -/
def recognizedLabels : List (List Char) :=
  ["C/ATT".data, "CMP/ATT".data, "CMP".data, "C".data, "ATT".data,
   "YDS".data, "TD".data, "INT".data, "CAR".data,
   "TGT".data, "TAR".data, "REC".data, "RECEPTIONS".data,
   "LOST".data, "FUM LOST".data, "LST".data, "FL".data,
   "FGM-A".data, "FGM".data, "FG".data, "FGA".data,
   "XPM-A".data, "XPM".data, "XPA".data]

/-- The source labels `extract_numeric` consults for each canonical field in
its own category's branch: when all of them are absent the field can only be
0, whatever other labels the payload carries. -/
def fieldLabels : WideField → List String
  | .pass_cmp => ["C/ATT", "CMP/ATT", "CMP", "C"]
  | .pass_att => ["C/ATT", "CMP/ATT", "ATT"]
  | .pass_yds => ["YDS"]
  | .pass_td => ["TD"]
  | .pass_int => ["INT"]
  | .rush_att => ["CAR", "ATT"]
  | .rush_yds => ["YDS"]
  | .rush_td => ["TD"]
  | .rec_tgt => ["TGT", "TAR"]
  | .rec_rec => ["REC", "RECEPTIONS"]
  | .rec_yds => ["YDS"]
  | .rec_td => ["TD"]
  | .fum_lost => ["LOST", "FUM LOST", "LST", "FL"]
  | .k_fgm => ["FGM-A", "FGM", "FG"]
  | .k_fga => ["FGM-A", "FGA"]
  | .xp_made => ["XPM-A", "XPM"]
  | .xp_att => ["XPM-A", "XPA"]

/-- Replace the field-goal columns of a wide row, leaving the rest alone. -/
def setKickStats (r : WideRow) (v a : ℚ) : WideRow :=
  ⟨r.key, fun c => if c = .k_fgm then v else if c = .k_fga then a else r.stats c⟩

lemma roundHalfEven_intCast (n : Int) : roundHalfEven (n : ℚ) = n := by
  unfold roundHalfEven
  rw [Int.floor_intCast]
  norm_num

lemma round2_int_div (n : Int) : round2 ((n : ℚ) / 100) = (n : ℚ) / 100 := by
  unfold round2
  rw [div_mul_cancel₀ _ (by norm_num : (100 : ℚ) ≠ 0), roundHalfEven_intCast]

lemma round2_eq_of (q : ℚ) (n : Int) (h : q * 100 = (n : ℚ)) :
    round2 q = (n : ℚ) / 100 := by
  unfold round2
  rw [h, roundHalfEven_intCast]

lemma maxListQ_mem : ∀ l : List ℚ, l ≠ [] → maxListQ l ∈ l
  | [], h => absurd rfl h
  | [x], _ => by simp [maxListQ]
  | x :: y :: t, _ => by
      have ih := maxListQ_mem (y :: t) (by simp)
      simp only [maxListQ]
      rcases max_choice x (maxListQ (y :: t)) with h | h <;> rw [h]
      · exact List.mem_cons_self _ _
      · exact List.mem_cons_of_mem _ ih

lemma le_maxListQ : ∀ l : List ℚ, ∀ x ∈ l, x ≤ maxListQ l
  | [], z, h => absurd h (List.not_mem_nil z)
  | [x], z, h => by
      rw [List.mem_singleton] at h
      subst h
      simp [maxListQ]
  | x :: y :: t, z, h => by
      simp only [maxListQ]
      rcases List.mem_cons.mp h with rfl | h2
      · exact le_max_left _ _
      · exact le_trans (le_maxListQ (y :: t) z h2) (le_max_right _ _)

lemma normGet_eq_none (stats : List (String × String)) (key : String)
    (h : ∀ p ∈ stats, normKey p.1 ≠ key.data) : normGet stats key = none := by
  unfold normGet
  have hfm : stats.filterMap
      (fun p => if normKey p.1 = key.data then some p.2 else none) = [] := by
    induction stats with
    | nil => rfl
    | cons p t ih =>
        rw [List.filterMap_cons, if_neg (h p (List.mem_cons_self _ _))]
        exact ih (fun q hq => h q (List.mem_cons_of_mem _ hq))
  rw [hfm]
  rfl

lemma normGet_eq_none_of_unrecognized (stats : List (String × String))
    (h : ∀ p ∈ stats, normKey p.1 ∉ recognizedLabels) (key : String)
    (hk : key.data ∈ recognizedLabels) : normGet stats key = none :=
  normGet_eq_none stats key (fun p hp heq => h p hp (heq ▸ hk))

lemma foldl_wcStep_fst : ∀ (cfg : List (Int × ℚ)) (acc : (Metric → Option ℚ) × List Int)
    (m : Metric), (cfg.foldl wcStep acc).1 m =
      match lastConfigured m cfg with
      | some v => some v
      | none => acc.1 m
  | [], _, _ => rfl
  | p :: t, acc, m => by
      have ih := foldl_wcStep_fst t (wcStep acc p) m
      simp only [List.foldl_cons]
      rw [ih]
      cases hlc : lastConfigured m t with
      | some v => simp [lastConfigured, hlc]
      | none =>
        cases hs : STATID_TO_METRIC p.1 with
        | none => simp [lastConfigured, hlc, hs, wcStep]
        | some trip =>
          obtain ⟨m', mode, scale⟩ := trip
          by_cases hm : m = m'
          · subst hm
            simp [lastConfigured, hlc, hs, wcStep]
          · simp [lastConfigured, hlc, hs, wcStep, hm]

lemma foldl_wcStep_snd : ∀ (cfg : List (Int × ℚ)) (acc : (Metric → Option ℚ) × List Int),
    (cfg.foldl wcStep acc).2 = acc.2 ++ unknownIdsOf cfg
  | [], acc => by simp [unknownIdsOf]
  | p :: t, acc => by
      have ih := foldl_wcStep_snd t (wcStep acc p)
      simp only [List.foldl_cons]
      rw [ih]
      cases hs : STATID_TO_METRIC p.1 with
      | none => simp [wcStep, hs, unknownIdsOf, List.filterMap_cons]
      | some trip =>
          obtain ⟨m', mode, scale⟩ := trip
          simp [wcStep, hs, unknownIdsOf, List.filterMap_cons]

lemma build_weight_config_fst (cfg : List (Int × ℚ)) (m : Metric) :
    (build_weight_config cfg).1 m = lastConfigured m cfg := by
  rw [build_weight_config, foldl_wcStep_fst]
  cases lastConfigured m cfg <;> rfl

lemma build_weight_config_snd (cfg : List (Int × ℚ)) :
    (build_weight_config cfg).2 = unknownIdsOf cfg := by
  rw [build_weight_config, foldl_wcStep_snd]
  rfl

lemma lastConfigured_filter (m : Metric) : ∀ cfg : List (Int × ℚ),
    lastConfigured m (cfg.filter (fun p => (STATID_TO_METRIC p.1).isSome)) =
      lastConfigured m cfg
  | [] => rfl
  | p :: t => by
      have ih := lastConfigured_filter m t
      cases hs : STATID_TO_METRIC p.1 with
      | none =>
          rw [List.filter_cons]
          simp only [hs, Option.isSome_none]
          cases hlc : lastConfigured m t with
          | some v => simpa [lastConfigured, hlc, hs] using ih.trans hlc
          | none => simpa [lastConfigured, hlc, hs] using ih.trans hlc
      | some trip =>
          rw [List.filter_cons]
          simp only [hs, Option.isSome_some]
          cases hlc : lastConfigured m t with
          | some v => simp [lastConfigured, ih, hlc]
          | none => simp [lastConfigured, ih, hlc]

/-- Claim C1: for every player-week key appearing in multiple duplicate rows,
`_collapse_player_weeks` reconciles the duplicates into a single record by
taking the maximum of each numeric field across the duplicate rows (the
maximum is attained by some duplicate and bounds every duplicate), not their
sum; exactly one record survives per key. -/
theorem collapse_player_weeks_takes_max (rows : List WideRow) :
    (∀ r ∈ collapse_player_weeks rows, ∀ c : NumCol,
        (∃ w ∈ rows, w.key = r.key ∧ w.stats c = r.stats c) ∧
        (∀ w ∈ rows, w.key = r.key → w.stats c ≤ r.stats c)) ∧
    (∀ r1 ∈ collapse_player_weeks rows, ∀ r2 ∈ collapse_player_weeks rows,
        r1.key = r2.key → r1 = r2) ∧
    (∀ w ∈ rows, ∃ r ∈ collapse_player_weeks rows, r.key = w.key) := by
  refine ⟨?_, ?_, ?_⟩
  · intro r hr c
    obtain ⟨k, hk, rfl⟩ := List.mem_map.mp hr
    have hkmem : k ∈ rows.map WideRow.key := List.mem_dedup.mp hk
    obtain ⟨w0, hw0, hw0k⟩ := List.mem_map.mp hkmem
    have hw0f : w0 ∈ rows.filter (fun r => decide (r.key = k)) :=
      List.mem_filter.mpr ⟨hw0, by simp [hw0k]⟩
    have hne : (rows.filter (fun r => decide (r.key = k))).map (fun r => r.stats c) ≠ [] := by
      intro hnil
      exact absurd (List.mem_map_of_mem (fun r => r.stats c) hw0f) (by simp [hnil])
    constructor
    · have hmem := maxListQ_mem _ hne
      obtain ⟨w, hwf, hws⟩ := List.mem_map.mp hmem
      have hw := List.mem_filter.mp hwf
      refine ⟨w, hw.1, by simpa using hw.2, hws⟩
    · intro w hw hkey
      have hwf : w ∈ rows.filter (fun r => decide (r.key = k)) :=
        List.mem_filter.mpr ⟨hw, by simp [hkey]⟩
      exact le_maxListQ _ _ (List.mem_map_of_mem (fun r => r.stats c) hwf)
  · intro r1 h1 r2 h2 hkeys
    obtain ⟨k1, _, rfl⟩ := List.mem_map.mp h1
    obtain ⟨k2, _, rfl⟩ := List.mem_map.mp h2
    have : k1 = k2 := hkeys
    rw [this]
  · intro w hw
    refine ⟨⟨w.key, fun c => maxListQ ((rows.filter (fun r => decide (r.key = w.key))).map
      (fun r => r.stats c))⟩, ?_, rfl⟩
    exact List.mem_map_of_mem _ (List.mem_dedup.mpr (List.mem_map_of_mem WideRow.key hw))

/-- Witness for C1: two duplicate rows for the same key with passing yards
120 and 310 collapse to a record with passing yards 310, not 430. -/
theorem collapse_player_weeks_takes_max_witness :
    ∃ r ∈ collapse_player_weeks [wrowPass 120, wrowPass 310],
      r.stats NumCol.pass_yds = 310 := by
  obtain ⟨h1, h2, h3⟩ := collapse_player_weeks_takes_max [wrowPass 120, wrowPass 310]
  obtain ⟨r, hr, hkey⟩ := h3 (wrowPass 310) (by simp)
  refine ⟨r, hr, ?_⟩
  obtain ⟨hat, hbd⟩ := h1 r hr NumCol.pass_yds
  have h310 : (310 : ℚ) ≤ r.stats NumCol.pass_yds := by
    have := hbd (wrowPass 310) (by simp) hkey.symm
    simpa [wrowPass, statOnlyQ] using this
  obtain ⟨w, hw, hwk, hws⟩ := hat
  rcases List.mem_cons.mp hw with rfl | hw2
  · rw [← hws]
    simp only [wrowPass, statOnlyQ] at hws ⊢
    norm_num at hws
    rw [← hws] at h310
    norm_num at h310
  · rw [List.mem_singleton] at hw2
    subst hw2
    rw [← hws]
    simp [wrowPass, statOnlyQ]

/-- Claim C2: the wide build's groupby-sum aggregation combines multiple
canonicalized category rows for the same key into a single record whose
every field is the field-by-field sum over the group's rows. -/
theorem aggregate_categories_sums_across (rows : List LongRow) :
    (∀ r ∈ aggregateCategories rows, ∀ c : WideField,
        r.stats c = ((rows.filter (fun w => decide (w.key = r.key))).map
          (fun w => w.stats c)).sum) ∧
    (∀ r1 ∈ aggregateCategories rows, ∀ r2 ∈ aggregateCategories rows,
        r1.key = r2.key → r1 = r2) ∧
    (∀ w ∈ rows, ∃ r ∈ aggregateCategories rows, r.key = w.key) := by
  refine ⟨?_, ?_, ?_⟩
  · intro r hr c
    obtain ⟨k, hk, rfl⟩ := List.mem_map.mp hr
    rfl
  · intro r1 h1 r2 h2 hkeys
    obtain ⟨k1, _, rfl⟩ := List.mem_map.mp h1
    obtain ⟨k2, _, rfl⟩ := List.mem_map.mp h2
    have : k1 = k2 := hkeys
    rw [this]
  · intro w hw
    refine ⟨⟨w.key, fun c => ((rows.filter (fun r => decide (r.key = w.key))).map
      (fun r => r.stats c)).sum⟩, ?_, rfl⟩
    exact List.mem_map_of_mem _ (List.mem_dedup.mpr (List.mem_map_of_mem LongRow.key hw))

/-- Witness for C2: a passing row (250 passing yards) and a rushing row
(40 rushing yards) for the same key aggregate into one record with both
fields populated independently. -/
theorem aggregate_categories_sums_across_witness :
    ∃ r ∈ aggregateCategories [longPassRow, longRushRow],
      r.stats WideField.pass_yds = 250 ∧ r.stats WideField.rush_yds = 40 := by
  obtain ⟨h1, h2, h3⟩ := aggregate_categories_sums_across [longPassRow, longRushRow]
  obtain ⟨r, hr, hkey⟩ := h3 longPassRow (by simp)
  refine ⟨r, hr, ?_, ?_⟩
  · rw [h1 r hr WideField.pass_yds]
    have : r.key = bk0 := by rw [hkey]; rfl
    rw [this]
    simp [longPassRow, longRushRow, statOnlyZ, bk0]
  · rw [h1 r hr WideField.rush_yds]
    have : r.key = bk0 := by rw [hkey]; rfl
    rw [this]
    simp [longPassRow, longRushRow, statOnlyZ, bk0]

/-- Claim C3: the unit corrector is batch-wide and all-or-nothing: when the
maximum over all yardage fields of the whole batch exceeds 1000, every
yardage field of every record is divided by 10 (non-yardage fields and keys
untouched); otherwise no record is changed at all. -/
theorem normalize_yard_units_batch_wide (rows : List WideRow) :
    (yardMax rows > 1000 →
        normalize_yard_units rows = rows.map scaleYardRow ∧
        ∀ r : WideRow,
          ((scaleYardRow r).stats .pass_yds = r.stats .pass_yds / 10 ∧
           (scaleYardRow r).stats .rush_yds = r.stats .rush_yds / 10 ∧
           (scaleYardRow r).stats .rec_yds = r.stats .rec_yds / 10) ∧
          (∀ c : NumCol, isYardCol c = false → (scaleYardRow r).stats c = r.stats c) ∧
          (scaleYardRow r).key = r.key) ∧
    (¬ yardMax rows > 1000 → normalize_yard_units rows = rows) := by
  constructor
  · intro h
    refine ⟨by rw [normalize_yard_units, if_pos h], ?_⟩
    intro r
    refine ⟨⟨rfl, rfl, rfl⟩, ?_, rfl⟩
    intro c hc
    cases c <;> simp_all [scaleYardRow, isYardCol]
  · intro h
    rw [normalize_yard_units, if_neg h]

/-- Witness for C3: a batch whose maximum yardage is 2450 gets every yardage
field divided by 10 (2450 becomes 245); a batch whose maximum is 380 is
returned unchanged. -/
theorem normalize_yard_units_batch_wide_witness :
    normalize_yard_units [recRow2450] = [scaleYardRow recRow2450] ∧
    (scaleYardRow recRow2450).stats NumCol.rec_yds = 245 ∧
    normalize_yard_units [rushRow380] = [rushRow380] := by
  obtain ⟨hpos, -⟩ := normalize_yard_units_batch_wide [recRow2450]
  obtain ⟨hmap, hprops⟩ := hpos (by
    simp [yardMax, colMax, maxListQ, recRow2450, statOnlyQ]
    norm_num)
  refine ⟨by simpa using hmap, ?_, ?_⟩
  · have := (hprops recRow2450).1.2.2
    rw [this]
    simp [recRow2450, statOnlyQ]
    norm_num
  · exact (normalize_yard_units_batch_wide [rushRow380]).2 (by
      simp [yardMax, colMax, maxListQ, rushRow380, statOnlyQ]
      norm_num)

/-- Claim C4: the weight resolver gives each metric the configured point
value when its identifier appears in the configuration (the last matching
row winning, as a dict assignment), gives the documented default exactly
when no configuration row resolved the metric (so a default never overwrites
a configured value), and routes non-catalog identifiers to the unknown
list. -/
theorem resolveWeights_config_over_defaults (cfg : List (Int × ℚ)) (m : Metric) :
    (lastConfigured m cfg = none → resolveWeights cfg m = DEFAULT_WEIGHTS m) ∧
    (∀ v, lastConfigured m cfg = some v → resolveWeights cfg m = v) ∧
    (build_weight_config cfg).2 = unknownIdsOf cfg := by
  refine ⟨?_, ?_, build_weight_config_snd cfg⟩
  · intro h0
    rw [resolveWeights, build_weight_config_fst, h0]
    rfl
  · intro v hv
    rw [resolveWeights, build_weight_config_fst, hv]
    rfl

/-- Witness for C4: rows [(25, 6.0), (999, 3.0)] give pass_td weight 6.0
overriding the 4.0 default, classify 999 as unknown, and leave the other
fields at documented defaults (rush_td 6.0, pass_yds 0.04). -/
theorem resolveWeights_config_over_defaults_witness :
    resolveWeights [((25 : Int), (6 : ℚ)), (999, 3)] Metric.pass_td = 6 ∧
    resolveWeights [((25 : Int), (6 : ℚ)), (999, 3)] Metric.rush_td = 6 ∧
    resolveWeights [((25 : Int), (6 : ℚ)), (999, 3)] Metric.pass_yds = 4 / 100 ∧
    (build_weight_config [((25 : Int), (6 : ℚ)), (999, 3)]).2 = [999] := by
  refine ⟨?_, ?_, ?_, ?_⟩
  · have h := (resolveWeights_config_over_defaults [((25 : Int), (6 : ℚ)), (999, 3)]
      Metric.pass_td).2.1 (6 * 1) (by simp [lastConfigured, STATID_TO_METRIC])
    rw [h]
    norm_num
  · have h := (resolveWeights_config_over_defaults [((25 : Int), (6 : ℚ)), (999, 3)]
      Metric.rush_td).1 (by simp [lastConfigured, STATID_TO_METRIC])
    rw [h]
    rfl
  · have h := (resolveWeights_config_over_defaults [((25 : Int), (6 : ℚ)), (999, 3)]
      Metric.pass_yds).1 (by simp [lastConfigured, STATID_TO_METRIC])
    rw [h]
    norm_num [DEFAULT_WEIGHTS]
  · rw [(resolveWeights_config_over_defaults [((25 : Int), (6 : ℚ)), (999, 3)]
      Metric.pass_td).2.2]
    simp [unknownIdsOf, STATID_TO_METRIC]

/-- Claim C5: the kicking subtotal equals extra-points-made times the
xp_made weight and nothing else: the field-goal columns never contribute
(replacing them changes no output), the catalog maps no field-goal
identifier (74, 77, 80, 83, 88), and even a configuration carrying a
field-goal identifier weight leaves a 4-field-goal kicker scoring only the
extra points. -/
theorem pts_kick_is_xp_only (r : WideRow) (cfg : List (Int × ℚ)) (v a : ℚ) :
    (pointsRow r (resolveWeights cfg)).pts_kick
        = round2 (r.stats .xp_made * resolveWeights cfg .xp_made) ∧
    pointsRow (setKickStats r v a) (resolveWeights cfg) = pointsRow r (resolveWeights cfg) ∧
    STATID_TO_METRIC 74 = none ∧ STATID_TO_METRIC 77 = none ∧
    STATID_TO_METRIC 80 = none ∧ STATID_TO_METRIC 83 = none ∧
    STATID_TO_METRIC 88 = none ∧
    (pointsRow kickerRow (resolveWeights [((74 : Int), (3 : ℚ))])).pts_kick = 2 ∧
    kickerRow.stats .k_fgm = 4 := by
  refine ⟨rfl, ?_, by decide, by decide, by decide, by decide, by decide, ?_, by simp [kickerRow]⟩
  · simp [pointsRow, setKickStats]
  · have hlast : lastConfigured Metric.xp_made [((74 : Int), (3 : ℚ))] = none := by
      simp [lastConfigured, STATID_TO_METRIC]
    have hw : resolveWeights [((74 : Int), (3 : ℚ))] Metric.xp_made = 1 := by
      rw [resolveWeights, build_weight_config_fst, hlast]
      rfl
    show round2 (kickerRow.stats .xp_made * resolveWeights [((74 : Int), (3 : ℚ))] Metric.xp_made) = 2
    rw [hw]
    have h2 : kickerRow.stats NumCol.xp_made = 2 := by simp [kickerRow]
    rw [h2, round2_eq_of (2 * 1) 200 (by norm_num)]
    norm_num

/-- Claim C6: each of the five category subtotals is computed from exactly
the weighted fields the source lists, each subtotal is rounded to two
decimals independently, the stored total equals the sum of the five stored
(already-rounded) subtotals, and the end-to-end example (passing 300 yards,
2 TD, 1 INT at default weights) scores exactly 18.00, which is also the
total when all other subtotals are 0. -/
theorem points_subtotals_rounded_and_total (r : WideRow) (w : Metric → ℚ) :
    (pointsRow r w).pts_pass = round2 (r.stats .pass_yds * w .pass_yds
        + r.stats .pass_td * w .pass_td + r.stats .pass_int * w .pass_int) ∧
    (pointsRow r w).pts_rush = round2 (r.stats .rush_yds * w .rush_yds
        + r.stats .rush_td * w .rush_td) ∧
    (pointsRow r w).pts_rec = round2 (r.stats .rec_rec * w .rec_rec
        + r.stats .rec_yds * w .rec_yds + r.stats .rec_td * w .rec_td) ∧
    (pointsRow r w).pts_kick = round2 (r.stats .xp_made * w .xp_made) ∧
    (pointsRow r w).pts_misc = round2 (r.stats .fum_lost * w .fum_lost) ∧
    (pointsRow r w).pts_ppr = (pointsRow r w).pts_pass + (pointsRow r w).pts_rush
        + (pointsRow r w).pts_rec + (pointsRow r w).pts_kick + (pointsRow r w).pts_misc ∧
    (pointsRow passExampleRow DEFAULT_WEIGHTS).pts_pass = 18 ∧
    (pointsRow passExampleRow DEFAULT_WEIGHTS).pts_ppr = 18 := by
  have hshape : ∀ q : ℚ, ∃ n : Int, round2 q = (n : ℚ) / 100 :=
    fun q => ⟨roundHalfEven (q * 100), rfl⟩
  have htot : ∀ a b c d e : ℚ,
      round2 (round2 a + round2 b + round2 c + round2 d + round2 e)
        = round2 a + round2 b + round2 c + round2 d + round2 e := by
    intro a b c d e
    obtain ⟨n1, h1⟩ := hshape a
    obtain ⟨n2, h2⟩ := hshape b
    obtain ⟨n3, h3⟩ := hshape c
    obtain ⟨n4, h4⟩ := hshape d
    obtain ⟨n5, h5⟩ := hshape e
    rw [h1, h2, h3, h4, h5]
    have hsum : (n1 : ℚ) / 100 + n2 / 100 + n3 / 100 + n4 / 100 + n5 / 100
        = ((n1 + n2 + n3 + n4 + n5 : Int) : ℚ) / 100 := by
      push_cast
      ring
    rw [hsum, round2_int_div]
  have hpass18 : (pointsRow passExampleRow DEFAULT_WEIGHTS).pts_pass = 18 := by
    show round2 (passExampleRow.stats .pass_yds * DEFAULT_WEIGHTS .pass_yds
        + passExampleRow.stats .pass_td * DEFAULT_WEIGHTS .pass_td
        + passExampleRow.stats .pass_int * DEFAULT_WEIGHTS .pass_int) = 18
    have hx : passExampleRow.stats .pass_yds * DEFAULT_WEIGHTS .pass_yds
        + passExampleRow.stats .pass_td * DEFAULT_WEIGHTS .pass_td
        + passExampleRow.stats .pass_int * DEFAULT_WEIGHTS .pass_int = 18 := by
      simp [passExampleRow, DEFAULT_WEIGHTS]
      norm_num
    rw [hx, round2_eq_of 18 1800 (by norm_num)]
    norm_num
  refine ⟨rfl, rfl, rfl, rfl, rfl, htot _ _ _ _ _, hpass18, ?_⟩
  have hz : ∀ q : ℚ, q = 0 → round2 q = 0 := by
    intro q hq
    rw [hq, round2_eq_of 0 0 (by norm_num)]
    norm_num
  show round2 ((pointsRow passExampleRow DEFAULT_WEIGHTS).pts_pass
      + round2 (passExampleRow.stats .rush_yds * DEFAULT_WEIGHTS .rush_yds
          + passExampleRow.stats .rush_td * DEFAULT_WEIGHTS .rush_td)
      + round2 (passExampleRow.stats .rec_rec * DEFAULT_WEIGHTS .rec_rec
          + passExampleRow.stats .rec_yds * DEFAULT_WEIGHTS .rec_yds
          + passExampleRow.stats .rec_td * DEFAULT_WEIGHTS .rec_td)
      + round2 (passExampleRow.stats .xp_made * DEFAULT_WEIGHTS .xp_made)
      + round2 (passExampleRow.stats .fum_lost * DEFAULT_WEIGHTS .fum_lost)) = 18
  have hrush : round2 (passExampleRow.stats .rush_yds * DEFAULT_WEIGHTS .rush_yds
      + passExampleRow.stats .rush_td * DEFAULT_WEIGHTS .rush_td) = 0 :=
    hz _ (by simp [passExampleRow, DEFAULT_WEIGHTS])
  have hrec : round2 (passExampleRow.stats .rec_rec * DEFAULT_WEIGHTS .rec_rec
      + passExampleRow.stats .rec_yds * DEFAULT_WEIGHTS .rec_yds
      + passExampleRow.stats .rec_td * DEFAULT_WEIGHTS .rec_td) = 0 :=
    hz _ (by simp [passExampleRow, DEFAULT_WEIGHTS])
  have hkick : round2 (passExampleRow.stats .xp_made * DEFAULT_WEIGHTS .xp_made) = 0 :=
    hz _ (by simp [passExampleRow, DEFAULT_WEIGHTS])
  have hmisc : round2 (passExampleRow.stats .fum_lost * DEFAULT_WEIGHTS .fum_lost) = 0 :=
    hz _ (by simp [passExampleRow, DEFAULT_WEIGHTS])
  rw [hpass18, hrush, hrec, hkick, hmisc]
  rw [show (18 : ℚ) + 0 + 0 + 0 + 0 = 18 by norm_num,
      round2_eq_of 18 1800 (by norm_num)]
  norm_num

/-- Counterexample for C7: a field-goal identifier (74), a concept the
source acknowledges in a comment, is classified exactly like a wholly
unrecognized identifier (999): both land in the same unknown list and
neither is in the catalog, so the two diagnostic classes the claim requires
are not distinguishable. -/
theorem fg_identifier_lands_in_unknown_class :
    (build_weight_config [((74 : Int), (3 : ℚ)), (999, 3)]).2 = [74, 999] ∧
    STATID_TO_METRIC 74 = none ∧ STATID_TO_METRIC 999 = none := by
  refine ⟨by decide, by decide, by decide⟩

/-- Claim C7 (amended): the resolver has a single diagnostic class: every
configuration identifier absent from the catalog -- field-goal identifiers
included -- is appended to the one unknown-identifier summary list, sets no
weight (the resolved weights only depend on the catalog hits), and is not an
error. -/
theorem weight_resolver_single_diag_class (cfg : List (Int × ℚ)) :
    (build_weight_config cfg).2 = unknownIdsOf cfg ∧
    (∀ m, (build_weight_config cfg).1 m =
        (build_weight_config (cfg.filter (fun p => (STATID_TO_METRIC p.1).isSome))).1 m) ∧
    (∀ p ∈ cfg, STATID_TO_METRIC p.1 = none → p.1 ∈ (build_weight_config cfg).2) := by
  refine ⟨build_weight_config_snd cfg, ?_, ?_⟩
  · intro m
    rw [build_weight_config_fst, build_weight_config_fst, lastConfigured_filter]
  · intro p hp h
    rw [build_weight_config_snd]
    exact List.mem_filterMap.mpr ⟨p, hp, by simp [h]⟩

/-- Witness for C7 (amended): identifier 74 with a point value is classified
into the unknown list. -/
theorem weight_resolver_single_diag_class_witness :
    (74 : Int) ∈ (build_weight_config [((74 : Int), (3 : ℚ))]).2 :=
  (weight_resolver_single_diag_class [((74 : Int), (3 : ℚ))]).2.2
    ((74 : Int), (3 : ℚ)) (by simp) (by decide)

/-- Counterexample for C8: a record whose receiving yards (400) exceed the
claimed 300 threshold produces an empty diagnostic list -- no plausibility
warning exists anywhere in the pipeline -- although the record itself is
emitted. -/
theorem implausible_record_no_warning :
    bigRecRow.stats NumCol.rec_yds = 400 ∧ (300 : ℚ) < 400 ∧
    (runComputePipeline [bigRecRow] []).2 = [] ∧
    (runComputePipeline [bigRecRow] []).1.length = 1 := by
  refine ⟨by simp [bigRecRow, statOnlyQ], by norm_num, ?_, ?_⟩
  · simp [runComputePipeline, collapse_player_weeks, yardMax, colMax, maxListQ,
      build_weight_config, bigRecRow, statOnlyQ, pwk0]
    norm_num
  · simp [runComputePipeline, collapse_player_weeks, normalize_yard_units, yardMax,
      colMax, maxListQ, build_weight_config, bigRecRow, statOnlyQ, pwk0]
    rw [if_neg (by norm_num)]
    simp

/-- Claim C8 (amended): the pipeline performs no plausibility-threshold
check: every collapsed record is scored and emitted regardless of its
magnitudes, and the only diagnostics the compute step can emit are the
unit-correction notice and the unknown-identifier summary, never a per-record
plausibility warning. -/
theorem pipeline_no_plausibility_check (rows : List WideRow) (cfg : List (Int × ℚ)) :
    (runComputePipeline rows cfg).1.length = (collapse_player_weeks rows).length ∧
    (∀ d ∈ (runComputePipeline rows cfg).2,
        d = Diag.unit_correction ∨ ∃ ids, d = Diag.unknown_ids ids) := by
  constructor
  · by_cases h : yardMax (collapse_player_weeks rows) > 1000 <;>
      simp [runComputePipeline, normalize_yard_units, h]
  · intro d hd
    simp only [runComputePipeline] at hd
    rcases List.mem_append.mp hd with h | h
    · left
      by_cases h1 : yardMax (collapse_player_weeks rows) > 1000
      · rw [if_pos h1] at h
        simpa using h
      · rw [if_neg h1] at h
        simp at h
    · right
      by_cases h2 : (build_weight_config cfg).2 ≠ []
      · rw [if_pos h2] at h
        exact ⟨_, by simpa using h⟩
      · rw [if_neg h2] at h
        simp at h

/-- Witness for C8 (amended): on a batch with a 400-receiving-yard record
and one unknown scoring id, the output still has one row per collapsed
record and the emitted diagnostic is the unknown-identifier summary. -/
theorem pipeline_no_plausibility_check_witness :
    (runComputePipeline [bigRecRow] [((999 : Int), (1 : ℚ))]).1.length
        = (collapse_player_weeks [bigRecRow]).length ∧
    (Diag.unknown_ids [999] = Diag.unit_correction ∨
      ∃ ids, Diag.unknown_ids [999] = Diag.unknown_ids ids) := by
  refine ⟨(pipeline_no_plausibility_check [bigRecRow] [((999 : Int), (1 : ℚ))]).1, ?_⟩
  apply (pipeline_no_plausibility_check [bigRecRow] [((999 : Int), (1 : ℚ))]).2
  have hdiag : (runComputePipeline [bigRecRow] [((999 : Int), (1 : ℚ))]).2
      = [Diag.unknown_ids [999]] := by
    simp [runComputePipeline, collapse_player_weeks, yardMax, colMax, maxListQ,
      build_weight_config, wcStep, STATID_TO_METRIC, bigRecRow, statOnlyQ, pwk0]
    norm_num
  rw [hdiag]
  simp

/-- Counterexample for C9: the numeric coercion parses signed integers, so a
rushing payload with YDS = "-3" yields a negative canonical field value;
"every field is a non-negative integer" fails on the code. -/
theorem extract_numeric_signed_value :
    extract_numeric "rushing" [("YDS", "-3")] WideField.rush_yds = -3 ∧
    (-3 : Int) < 0 := by
  refine ⟨by decide, by norm_num⟩

set_option maxHeartbeats 1600000 in
/-- Claim C9 (amended): the extractor is total (all seventeen fields are
always present as integer values and no input raises), every field outside
the dispatched category's domain is 0, every field whose own source labels
are all absent is 0 -- whatever other labels the payload carries -- and when
no recognized source label is present at all every field is 0; but field
values are signed integers, not guaranteed non-negative. -/
theorem extract_numeric_category_scoped (sg : String) (stats : List (String × String)) :
    (∀ f, categoryFields sg f = false → extract_numeric sg stats f = 0) ∧
    (∀ f, (∀ key ∈ fieldLabels f, normGet stats key = none) →
        extract_numeric sg stats f = 0) ∧
    ((∀ p ∈ stats, normKey p.1 ∉ recognizedLabels) →
        ∀ f, extract_numeric sg stats f = 0) := by
  refine ⟨?_, ?_, ?_⟩
  · intro f h
    unfold extract_numeric categoryFields at *
    split_ifs at h ⊢ <;> cases f <;>
      simp_all [passingMask, rushingMask, receivingMask, fumblesMask, kickingMask,
        passingRow, rushingRow, receivingRow, fumblesRow, kickingRow]
  · intro f habs
    cases f <;>
      simp only [fieldLabels, List.mem_cons, List.mem_singleton, List.not_mem_nil,
        forall_eq_or_imp, forall_eq] at habs <;>
      unfold extract_numeric <;>
      split_ifs <;>
      simp [passingRow, rushingRow, receivingRow, fumblesRow, kickingRow, toIntOpt, habs]
  · intro h f
    have hg : ∀ key : String, key.data ∈ recognizedLabels → normGet stats key = none :=
      fun k hk => normGet_eq_none_of_unrecognized stats h k hk
    have e1 : normGet stats "C/ATT" = none := hg _ (by decide)
    have e2 : normGet stats "CMP/ATT" = none := hg _ (by decide)
    have e3 : normGet stats "CMP" = none := hg _ (by decide)
    have e4 : normGet stats "C" = none := hg _ (by decide)
    have e5 : normGet stats "ATT" = none := hg _ (by decide)
    have e6 : normGet stats "YDS" = none := hg _ (by decide)
    have e7 : normGet stats "TD" = none := hg _ (by decide)
    have e8 : normGet stats "INT" = none := hg _ (by decide)
    have e9 : normGet stats "CAR" = none := hg _ (by decide)
    have e10 : normGet stats "TGT" = none := hg _ (by decide)
    have e11 : normGet stats "TAR" = none := hg _ (by decide)
    have e12 : normGet stats "REC" = none := hg _ (by decide)
    have e13 : normGet stats "RECEPTIONS" = none := hg _ (by decide)
    have e14 : normGet stats "LOST" = none := hg _ (by decide)
    have e15 : normGet stats "FUM LOST" = none := hg _ (by decide)
    have e16 : normGet stats "LST" = none := hg _ (by decide)
    have e17 : normGet stats "FL" = none := hg _ (by decide)
    have e18 : normGet stats "FGM-A" = none := hg _ (by decide)
    have e19 : normGet stats "FGM" = none := hg _ (by decide)
    have e20 : normGet stats "FG" = none := hg _ (by decide)
    have e21 : normGet stats "FGA" = none := hg _ (by decide)
    have e22 : normGet stats "XPM-A" = none := hg _ (by decide)
    have e23 : normGet stats "XPM" = none := hg _ (by decide)
    have e24 : normGet stats "XPA" = none := hg _ (by decide)
    unfold extract_numeric
    split_ifs <;> cases f <;>
      simp [passingRow, rushingRow, receivingRow, fumblesRow, kickingRow, toIntOpt,
        e1, e2, e3, e4, e5, e6, e7, e8, e9, e10, e11, e12, e13, e14, e15, e16,
        e17, e18, e19, e20, e21, e22, e23, e24]

/-- Witness for C9 (amended): a passing field is 0 on a receiving payload; a
rushing payload carrying only TD leaves the absent-label fields rush_yds and
rush_att at 0; and an unrecognized label leaves every field at 0. -/
theorem extract_numeric_category_scoped_witness :
    categoryFields "receiving" WideField.pass_yds = false ∧
    extract_numeric "receiving" [("YDS", "99")] WideField.pass_yds = 0 ∧
    extract_numeric "rushing" [("TD", "5")] WideField.rush_yds = 0 ∧
    extract_numeric "rushing" [("TD", "5")] WideField.rush_att = 0 ∧
    extract_numeric "passing" [("FOO", "7")] WideField.pass_yds = 0 := by
  refine ⟨by decide, ?_, ?_, ?_, ?_⟩
  · exact (extract_numeric_category_scoped "receiving" [("YDS", "99")]).1
      WideField.pass_yds (by decide)
  · exact (extract_numeric_category_scoped "rushing" [("TD", "5")]).2.1
      WideField.rush_yds (by decide)
  · exact (extract_numeric_category_scoped "rushing" [("TD", "5")]).2.1
      WideField.rush_att (by decide)
  · exact (extract_numeric_category_scoped "passing" [("FOO", "7")]).2.2
      (by decide) WideField.pass_yds

/-- Claim C10: `to_int` returns the parsed integer exactly when the input,
after removing commas and surrounding whitespace, is a valid integer literal
(per Python's `int`), and returns 0 for everything else without raising; in
particular decimal-formatted strings such as "301.5" and even "301.0"
coerce to 0, never to a truncated or rounded integer, while " 1,234 "
parses to 1234. -/
theorem to_int_literal_or_zero :
    (∀ s : String, pyIntOfString (cleaned s) = none → to_int s = 0) ∧
    (∀ (s : String) (n : Int), pyIntOfString (cleaned s) = some n → to_int s = n) ∧
    to_int "301.5" = 0 ∧ to_int "301.0" = 0 ∧ to_int " 1,234 " = 1234 ∧
    to_int "abc" = 0 ∧ to_int "" = 0 ∧ to_int "-17" = -17 := by
  refine ⟨?_, ?_, by decide, by decide, by decide, by decide, by decide, by decide⟩
  · intro s h
    unfold to_int
    by_cases he : cleaned s = ""
    · simp [he]
    · simp [he, h]
  · intro s n h
    unfold to_int
    by_cases he : cleaned s = ""
    · rw [he] at h
      rw [show pyIntOfString "" = none from rfl] at h
      cases h
    · simp [he, h]

/-- Witness for C10: a valid literal parses and an invalid one collapses to
zero. -/
theorem to_int_literal_or_zero_witness :
    to_int "42" = 42 ∧ to_int "x7" = 0 :=
  ⟨to_int_literal_or_zero.2.1 "42" 42 (by decide),
   to_int_literal_or_zero.1 "x7" (by decide)⟩

end FPPull
